import Mathlib

/-!
Verification of the CDK_Workshop hit-counter core.

The development shallowly embeds the two Lambda handlers of the repository
(src/lambda/hitcount.py and src/lambda/hello.py) and the authorization
grants produced by the HitCounter construct (src/hitcounter.py).

JSON values are modelled by the inductive type Json below; the functions
jsonDumps and jsonLoads model the behaviour of the Python json library
(json.dumps with its default separators and ensure_ascii escaping, and
json.loads restricted to integer numerals, which is the only number shape
this system ever serializes).
-/

namespace CDKWorkshop

/-- Model of a Python JSON value: the payloads exchanged between the
hit-counter handler, the DynamoDB table key, and the downstream Lambda. -/
inductive Json where
  | null
  | bool (b : Bool)
  | num (n : Int)
  | str (s : String)
  | arr (elems : List Json)
  | obj (fields : List (String × Json))

/-- Dictionary lookup, modelling the Python subscript ev[k] on a dict;
returns none when the key is absent or the value is not a dict (in Python
these raise KeyError and TypeError respectively). -/
def Json.lookup : Json → String → Option Json
  | .obj fields, k => List.lookup k fields
  | _, _ => none

/-- The double-quote character. -/
def quoteChar : Char := Char.ofNat 34

/-- The backslash character. -/
def backslashChar : Char := Char.ofNat 92

/-- A one-character string holding a double quote. -/
def dq : String := String.singleton quoteChar

/-- A one-character string holding a backslash. -/
def bsl : String := String.singleton backslashChar

/-- Hexadecimal digit character for a value below 16 (lowercase, as
produced by the Python json encoder). -/
def hexDigit (n : Nat) : Char :=
  if n < 10 then Char.ofNat (48 + n) else Char.ofNat (87 + n)

/-- Escape one character the way the Python json encoder does with its
default ensure_ascii=True: named escapes for the common control
characters, backslash-u sequences for other non-printable or non-ASCII
code points, everything else verbatim. -/
def escapeChar (c : Char) : String :=
  if c = quoteChar then bsl ++ dq
  else if c = backslashChar then bsl ++ bsl
  else if c = Char.ofNat 10 then bsl ++ "n"
  else if c = Char.ofNat 9 then bsl ++ "t"
  else if c = Char.ofNat 13 then bsl ++ "r"
  else if c = Char.ofNat 8 then bsl ++ "b"
  else if c = Char.ofNat 12 then bsl ++ "f"
  else if c.toNat < 32 || 126 < c.toNat then
    bsl ++ "u" ++ String.mk [hexDigit (c.toNat / 4096 % 16),
      hexDigit (c.toNat / 256 % 16), hexDigit (c.toNat / 16 % 16),
      hexDigit (c.toNat % 16)]
  else String.singleton c

/-- Escape every character of a string. -/
def escapeString (s : String) : String :=
  s.toList.foldl (fun acc c => acc ++ escapeChar c) ""

/-- A JSON string literal: escaped content between double quotes. -/
def quoteString (s : String) : String := dq ++ escapeString s ++ dq

mutual

/-- Model of json.dumps with the Python default separators
(comma-space between items, colon-space between key and value). -/
def jsonDumps : Json → String
  | .null => "null"
  | .bool true => "true"
  | .bool false => "false"
  | .num n => toString n
  | .str s => quoteString s
  | .arr xs => "[" ++ jsonDumpsList xs ++ "]"
  | .obj fs => "\x7b" ++ jsonDumpsFields fs ++ "\x7d"

/-- Serialize array elements separated by comma-space. -/
def jsonDumpsList : List Json → String
  | [] => ""
  | [x] => jsonDumps x
  | x :: y :: xs => jsonDumps x ++ ", " ++ jsonDumpsList (y :: xs)

/-- Serialize object fields separated by comma-space. -/
def jsonDumpsFields : List (String × Json) → String
  | [] => ""
  | [(k, v)] => quoteString k ++ ": " ++ jsonDumps v
  | (k, v) :: g :: fs =>
      quoteString k ++ ": " ++ jsonDumps v ++ ", " ++ jsonDumpsFields (g :: fs)

end

/-- Skip JSON whitespace. -/
def skipWs : List Char → List Char
  | c :: cs =>
      if c = ' ' || c = Char.ofNat 10 || c = Char.ofNat 9 || c = Char.ofNat 13
      then skipWs cs else c :: cs
  | [] => []

/-- Value of a hexadecimal digit character, if it is one. -/
def hexVal? (c : Char) : Option Nat :=
  if 48 ≤ c.toNat && c.toNat ≤ 57 then some (c.toNat - 48)
  else if 97 ≤ c.toNat && c.toNat ≤ 102 then some (c.toNat - 87)
  else if 65 ≤ c.toNat && c.toNat ≤ 70 then some (c.toNat - 55)
  else none

/-- Parse the body of a JSON string literal after the opening quote,
handling the escape sequences the encoder produces; returns the decoded
string and the input remaining after the closing quote. The first
argument is recursion fuel. -/
def parseStringBody : Nat → List Char → Except String (String × List Char)
  | _, [] => .error "unterminated string"
  | 0, _ => .error "out of fuel"
  | fuel + 1, c :: cs =>
    if c = quoteChar then .ok ("", cs)
    else if c = backslashChar then
      match cs with
      | [] => .error "bad escape"
      | e :: cs2 =>
        let cont := fun (ch : Char) (rest : List Char) =>
          match parseStringBody fuel rest with
          | .ok (s, r) => .ok (String.singleton ch ++ s, r)
          | .error m => .error m
        if e = quoteChar then cont quoteChar cs2
        else if e = backslashChar then cont backslashChar cs2
        else if e = '/' then cont '/' cs2
        else if e = 'n' then cont (Char.ofNat 10) cs2
        else if e = 't' then cont (Char.ofNat 9) cs2
        else if e = 'r' then cont (Char.ofNat 13) cs2
        else if e = 'b' then cont (Char.ofNat 8) cs2
        else if e = 'f' then cont (Char.ofNat 12) cs2
        else if e = 'u' then
          match cs2 with
          | h1 :: h2 :: h3 :: h4 :: cs3 =>
            match hexVal? h1, hexVal? h2, hexVal? h3, hexVal? h4 with
            | some a, some b, some cc, some d =>
                cont (Char.ofNat (a * 4096 + b * 256 + cc * 16 + d)) cs3
            | _, _, _, _ => .error "bad unicode escape"
          | _ => .error "bad unicode escape"
        else .error "bad escape"
    else
      match parseStringBody fuel cs with
      | .ok (s, r) => .ok (String.singleton c ++ s, r)
      | .error m => .error m

/-- Split a leading run of decimal digits off the input. -/
def takeDigits : List Char → List Char × List Char
  | [] => ([], [])
  | c :: cs =>
      if 48 ≤ c.toNat && c.toNat ≤ 57 then
        let p := takeDigits cs
        (c :: p.1, p.2)
      else ([], c :: cs)

/-- Numeric value of a digit run. -/
def digitsToNat (ds : List Char) : Nat :=
  ds.foldl (fun a c => a * 10 + (c.toNat - 48)) 0

mutual

/-- Parse one JSON value (integer numerals only, which is all this
system serializes). The first argument is recursion fuel. -/
def parseVal : Nat → List Char → Except String (Json × List Char)
  | 0, _ => .error "out of fuel"
  | fuel + 1, input =>
    match skipWs input with
    | [] => .error "unexpected end of input"
    | c :: cs =>
      if c = 'n' then
        match cs with
        | 'u' :: 'l' :: 'l' :: r => .ok (.null, r)
        | _ => .error "bad literal"
      else if c = 't' then
        match cs with
        | 'r' :: 'u' :: 'e' :: r => .ok (.bool true, r)
        | _ => .error "bad literal"
      else if c = 'f' then
        match cs with
        | 'a' :: 'l' :: 's' :: 'e' :: r => .ok (.bool false, r)
        | _ => .error "bad literal"
      else if c = quoteChar then
        match parseStringBody fuel cs with
        | .ok (s, r) => .ok (.str s, r)
        | .error m => .error m
      else if c = '-' then
        match takeDigits cs with
        | ([], _) => .error "bad number"
        | (ds, r) => .ok (.num (-(digitsToNat ds : Int)), r)
      else if 48 ≤ c.toNat && c.toNat ≤ 57 then
        match takeDigits (c :: cs) with
        | (ds, r) => .ok (.num (digitsToNat ds : Int), r)
      else if c.toNat = 91 then
        match skipWs cs with
        | d :: r =>
            if d.toNat = 93 then .ok (.arr [], r)
            else
              match parseElems fuel (d :: r) with
              | .ok (xs, r2) => .ok (.arr xs, r2)
              | .error m => .error m
        | [] => .error "unterminated array"
      else if c.toNat = 123 then
        match skipWs cs with
        | d :: r =>
            if d.toNat = 125 then .ok (.obj [], r)
            else
              match parseFields fuel (d :: r) with
              | .ok (fs, r2) => .ok (.obj fs, r2)
              | .error m => .error m
        | [] => .error "unterminated object"
      else .error "unexpected character"

/-- Parse the elements of a non-empty array up to the closing bracket. -/
def parseElems : Nat → List Char → Except String (List Json × List Char)
  | 0, _ => .error "out of fuel"
  | fuel + 1, input =>
    match parseVal fuel input with
    | .error m => .error m
    | .ok (v, rest) =>
      match skipWs rest with
      | c :: r =>
          if c = ',' then
            match parseElems fuel r with
            | .ok (xs, r2) => .ok (v :: xs, r2)
            | .error m => .error m
          else if c.toNat = 93 then .ok ([v], r)
          else .error "expected comma or closing bracket"
      | [] => .error "unterminated array"

/-- Parse the fields of a non-empty object up to the closing brace. -/
def parseFields : Nat → List Char → Except String (List (String × Json) × List Char)
  | 0, _ => .error "out of fuel"
  | fuel + 1, input =>
    match skipWs input with
    | c :: cs =>
      if c = quoteChar then
        match parseStringBody fuel cs with
        | .error m => .error m
        | .ok (k, rest) =>
          match skipWs rest with
          | d :: r =>
            if d = ':' then
              match parseVal fuel r with
              | .error m => .error m
              | .ok (v, rest2) =>
                match skipWs rest2 with
                | e :: r2 =>
                    if e = ',' then
                      match parseFields fuel r2 with
                      | .ok (fs, r3) => .ok ((k, v) :: fs, r3)
                      | .error m => .error m
                    else if e.toNat = 125 then .ok ([(k, v)], r2)
                    else .error "expected comma or closing brace"
                | [] => .error "unterminated object"
            else .error "expected colon"
          | [] => .error "expected colon"
      else .error "expected key string"
    | [] => .error "unterminated object"

end

/-- Model of json.loads, restricted as described at parseVal. -/
def jsonLoads (s : String) : Except String Json :=
  match parseVal (s.length + 2) s.toList with
  | .error m => .error m
  | .ok (v, rest) =>
      if (skipWs rest).isEmpty then .ok v else .error "trailing data"

/-- Environment of the hit-counter Lambda, read from os.environ at module
load in src/lambda/hitcount.py. -/
structure Env where
  DOWNSTREAM_FUNCTION_NAME : String
  HITS_TABLE_NAME : String

/-- State of the DynamoDB table created by the HitCounter construct:
partition key is the path string, and the only attribute the core writes
is the numeric hits counter. A path absent from the table maps to none. -/
structure Store where
  hits : String → Option Nat

/-- Failure of the table.update_item call: either DynamoDB is
unreachable or rejects the write, or the request fails server-side
validation (DynamoDB rejects a key attribute that is the empty string or
does not have the declared partition-key type, here STRING). -/
inductive StoreErr where
  | unavailable
  | validation

/-- Failure surfaced by the hit-counter handler, modelling the Python
exceptions that can escape src/lambda/hitcount.py. -/
inductive HandlerErr where
  | keyError
  | counterStore (e : StoreErr)
  | invokeFailed (msg : String)
  | malformedResponse (msg : String)

/-- Observable side effects of one handler run, in order: a committed
counter update keyed by the given value, or a call on the Lambda invoke
transport with a target function name and a payload. -/
inductive Effect where
  | storeUpdate (key : Json)
  | invokeCall (target : String) (payload : String)

/-- Model of table.update_item with
UpdateExpression ADD hits :incr and :incr = 1, keyed by
Key = dict with path mapped to keyVal. The Boolean records whether the
store is reachable and able to commit. DynamoDB ADD on an absent item
creates it with the attribute equal to the increment, so an absent path
behaves as 0; a key value that is empty or not a string is rejected by
DynamoDB validation and nothing is written. -/
def updateItem (storeAvailable : Bool) (st : Store) (keyVal : Json) :
    Except StoreErr Store :=
  if storeAvailable = false then .error .unavailable
  else
    match keyVal with
    | .str p =>
        if p = "" then .error .validation
        else .ok ⟨fun q => if q = p then some ((st.hits p).getD 0 + 1) else st.hits q⟩
    | _ => .error .validation

/-- Shallow embedding of handler in src/lambda/hitcount.py. The steps
are, in source order: read event subscript path (KeyError if absent),
table.update_item adding 1 to hits for that path, _lambda.invoke on the
configured downstream function name with payload json.dumps of the
event, then return json.loads of the response payload. dumps and loads
model the json library; invoke models the boto3 Lambda invoke transport
(its error case covers transport failure, timeout, or a failed
downstream run). The result carries the returned value or exception, the
table state after the run, and the trace of side effects. Logging print
calls are omitted. The handler holds no state of its own between
requests: it is a pure function of environment, table state and event. -/
def handler (dumps : Json → String) (loads : String → Except String Json)
    (storeAvailable : Bool)
    (invoke : String → String → Except String String)
    (env : Env) (st : Store) (event : Json) :
    Except HandlerErr Json × Store × List Effect :=
  match Json.lookup event "path" with
  | none => (.error .keyError, st, [])
  | some pv =>
    match updateItem storeAvailable st pv with
    | .error e => (.error (.counterStore e), st, [])
    | .ok st2 =>
      match invoke env.DOWNSTREAM_FUNCTION_NAME (dumps event) with
      | .error msg =>
          (.error (.invokeFailed msg), st2,
           [.storeUpdate pv, .invokeCall env.DOWNSTREAM_FUNCTION_NAME (dumps event)])
      | .ok body =>
        match loads body with
        | .error msg =>
            (.error (.malformedResponse msg), st2,
             [.storeUpdate pv, .invokeCall env.DOWNSTREAM_FUNCTION_NAME (dumps event)])
        | .ok resp =>
            (.ok resp, st2,
             [.storeUpdate pv, .invokeCall env.DOWNSTREAM_FUNCTION_NAME (dumps event)])

/-- A one-character string holding a single quote. -/
def sq : String := String.singleton (Char.ofNat 39)

mutual

/-- Python repr of a parsed JSON value, used by str.format on container
arguments; strings use single quotes as Python repr does. -/
def pyRepr : Json → String
  | .null => "None"
  | .bool true => "True"
  | .bool false => "False"
  | .num n => toString n
  | .str s => sq ++ s ++ sq
  | .arr xs => "[" ++ pyReprList xs ++ "]"
  | .obj fs => "\x7b" ++ pyReprFields fs ++ "\x7d"

/-- Comma-separated reprs of list elements. -/
def pyReprList : List Json → String
  | [] => ""
  | [x] => pyRepr x
  | x :: y :: xs => pyRepr x ++ ", " ++ pyReprList (y :: xs)

/-- Comma-separated reprs of dict entries. -/
def pyReprFields : List (String × Json) → String
  | [] => ""
  | [(k, v)] => sq ++ k ++ sq ++ ": " ++ pyRepr v
  | (k, v) :: g :: fs =>
      sq ++ k ++ sq ++ ": " ++ pyRepr v ++ ", " ++ pyReprFields (g :: fs)

end

/-- Python str.format of one argument: strings are inserted verbatim,
scalars and containers via str, which for parsed JSON values is the
rendering of pyRepr. -/
def formatArg : Json → String
  | .str s => s
  | v => pyRepr v

/-- Shallow embedding of handler in src/lambda/hello.py: returns
statusCode 200, a text/plain Content-Type header, and a greeting body
naming the request path; raises KeyError when the event has no path. -/
def helloHandler (event : Json) : Except String Json :=
  match Json.lookup event "path" with
  | none => .error "KeyError: path"
  | some pv =>
      .ok (.obj [("statusCode", .num 200),
        ("headers", .obj [("Content-Type", .str "text/plain")]),
        ("body", .str ("Hello, CDK! You have hit " ++ formatArg pv ++ "\n"))])

/-- Model of the AWS Lambda synchronous invoke transport for a registry
of deployed functions: the target is resolved by name, the payload is
deserialized to an event, the function runs, and its return value is
serialized back as the response payload. The caller receives the
response payload only when the whole round trip succeeds. -/
def lambdaTransport (fns : String → Option (Json → Except String Json))
    (dumps : Json → String) (loads : String → Except String Json)
    (target : String) (payload : String) : Except String String :=
  match fns target with
  | none => .error "function not found"
  | some f =>
    match loads payload with
    | .error m => .error m
    | .ok ev =>
      match f ev with
      | .error m => .error m
      | .ok r => .ok (dumps r)

/-- Deployment of src/cdk_workshop/cdk_workshop_stack.py: the only
downstream function is the hello handler. -/
def helloFns : String → Option (Json → Except String Json) :=
  fun n => if n = "HelloHandler" then some helloHandler else none

/-- Environment of the deployed hit-counter handler. -/
def demoEnv : Env := ⟨"HelloHandler", "Hits"⟩

/-- The Hits table before any request. -/
def emptyStore : Store := ⟨fun _ => none⟩

/-- A request event with path /hello. -/
def helloEvent : Json := .obj [("path", .str "/hello")]

/-- The response src/lambda/hello.py produces for a request with path
/hello. -/
def helloResponse : Json :=
  .obj [("statusCode", .num 200),
    ("headers", .obj [("Content-Type", .str "text/plain")]),
    ("body", .str "Hello, CDK! You have hit /hello\n")]

/-- One run of the deployed system: the hit-counter handler with the
real json codec, a reachable store, and the Lambda transport dispatching
to the hello handler. -/
def runHandler (st : Store) (event : Json) :
    Except HandlerErr Json × Store × List Effect :=
  handler jsonDumps jsonLoads true (lambdaTransport helloFns jsonDumps jsonLoads)
    demoEnv st event

/-- Iterate sequential runs of the deployed system on one event,
keeping the table state. -/
def iterateHandler : Nat → Store → Store
  | 0, st => st
  | n + 1, st => iterateHandler n (runHandler st helloEvent).2.1

/-- True exactly when the handler outcome is an exception. -/
def isErr : Except HandlerErr Json → Bool
  | .error _ => true
  | .ok _ => false

/-- True exactly when an effect is a committed counter update. -/
def Effect.isStoreUpdate : Effect → Bool
  | .storeUpdate _ => true
  | .invokeCall _ _ => false

/-- The value the hit-counter handler returns as a function of the
outcome of the synchronous invoke call: a transport failure propagates,
an unparsable response payload propagates, and otherwise the decoded
downstream response is returned as is. -/
def relayResult (loads : String → Except String Json) :
    Except String String → Except HandlerErr Json
  | .error msg => .error (.invokeFailed msg)
  | .ok body =>
    match loads body with
    | .error msg => .error (.malformedResponse msg)
    | .ok resp => .ok resp

/-- One authorization fact of the AccessPolicy: a principal, an allowed
action, and the optional source-account and source-ARN scoping
conditions. -/
structure GrantEntry where
  principal : String
  action : String
  sourceAccount : Option String
  sourceArn : Option String
deriving DecidableEq

/-- One attempted invocation as seen by the invocation transport: the
calling principal, the requested action, and the source context the
transport attaches to the call. -/
structure InvokeAttempt where
  principal : String
  action : String
  sourceAccount : Option String
  sourceArn : Option String
deriving DecidableEq

/-- Whether one grant entry matches an attempt: principal and action
must agree, and every scoping condition present in the entry must be met
by the attempt. -/
def GrantEntry.allows (g : GrantEntry) (a : InvokeAttempt) : Bool :=
  g.principal == a.principal && g.action == a.action
    && (match g.sourceAccount with
        | none => true
        | some acc => a.sourceAccount == some acc)
    && (match g.sourceArn with
        | none => true
        | some arn => a.sourceArn == some arn)

/-- Grants for invoking the downstream function, as created by
HitCounter.__init__ in src/hitcounter.py: the downstream.grant_invoke
call grants the handler execution role the invoke action on the
downstream, and the downstream.add_permission call adds a resource
policy entry for the Lambda service principal conditioned on
source_account being the account of the stack and source_arn being the
function ARN of the hit-counter handler. -/
def downstreamInvokeGrants (handlerRole account handlerArn : String) :
    List GrantEntry :=
  [⟨handlerRole, "lambda:InvokeFunction", none, none⟩,
   ⟨"lambda.amazonaws.com", "lambda:InvokeFunction", some account, some handlerArn⟩]

/-- Modelled from the spec: the AccessPolicy is not evaluated by the
core but consulted by the invocation transport on every call, which
permits an attempt only when some grant entry matches it and denies it
otherwise (default deny). -/
def allowedToInvoke (grants : List GrantEntry) (a : InvokeAttempt) : Bool :=
  grants.any fun g => g.allows a

/-- Characterization of a successful counter update: the key value was
a non-empty string, and the resulting table carries one more hit for
exactly that path. -/
theorem updateItem_ok_char (storeAvailable : Bool) (st : Store) (pv : Json)
    (st2 : Store) (h : updateItem storeAvailable st pv = .ok st2) :
    ∃ p, pv = .str p ∧ p ≠ "" ∧
      st2.hits = fun q => if q = p then some ((st.hits p).getD 0 + 1) else st.hits q := by
  cases storeAvailable with
  | false => simp [updateItem] at h
  | true =>
    cases pv with
    | str p =>
      by_cases hp : p = ""
      · simp [updateItem, hp] at h
      · refine ⟨p, rfl, hp, ?_⟩
        simp [updateItem, hp] at h
        rw [← h]
    | null => simp [updateItem] at h
    | bool b => simp [updateItem] at h
    | num n => simp [updateItem] at h
    | arr xs => simp [updateItem] at h
    | obj fs => simp [updateItem] at h

/-- After a successful counter update, the table state the handler
finishes with is the updated one, whatever the invoke call does. -/
theorem handler_store_of_update_ok
    (dumps : Json → String) (loads : String → Except String Json)
    (storeAvailable : Bool) (invoke : String → String → Except String String)
    (env : Env) (st : Store) (event : Json) (pv : Json) (st2 : Store)
    (hpath : Json.lookup event "path" = some pv)
    (hupd : updateItem storeAvailable st pv = .ok st2) :
    (handler dumps loads storeAvailable invoke env st event).2.1 = st2 := by
  cases hinv : invoke env.DOWNSTREAM_FUNCTION_NAME (dumps event) with
  | error m => simp [handler, hpath, hupd, hinv]
  | ok body =>
    cases hload : loads body with
    | error m => simp [handler, hpath, hupd, hinv, hload]
    | ok resp => simp [handler, hpath, hupd, hinv, hload]

/-- C1: for every request with a valid non-empty path, if the counter
increment and the downstream invocation both succeed, the hit-counter
handler returns exactly the response the downstream handler produced for
that request, with nothing altered or reinterpreted; the round-trip
hypotheses state that the request and response survive the json
serialization the transport applies. -/
theorem C1_pass_through_fidelity
    (dumps : Json → String) (loads : String → Except String Json)
    (fns : String → Option (Json → Except String Json))
    (env : Env) (st : Store) (event : Json) (p : String)
    (f : Json → Except String Json) (r : Json)
    (hpath : Json.lookup event "path" = some (.str p))
    (hp : p ≠ "")
    (hfn : fns env.DOWNSTREAM_FUNCTION_NAME = some f)
    (hev : loads (dumps event) = .ok event)
    (hr : f event = .ok r)
    (hrt : loads (dumps r) = .ok r) :
    (handler dumps loads true (lambdaTransport fns dumps loads) env st event).1
      = .ok r := by
  simp [handler, hpath, updateItem, hp, lambdaTransport, hfn, hev, hr, hrt]

/-- Witness for C1 at the deployed hello scenario. -/
theorem C1_pass_through_fidelity_witness :
    (handler jsonDumps jsonLoads true
        (lambdaTransport helloFns jsonDumps jsonLoads) demoEnv emptyStore
        helloEvent).1 = .ok helloResponse :=
  C1_pass_through_fidelity jsonDumps jsonLoads helloFns demoEnv emptyStore
    helloEvent "/hello" helloHandler helloResponse rfl (by decide) rfl rfl rfl rfl

/-- C2: whenever the counter increment fails, the handler fails with
that store error, the table is unchanged, and the effect trace is empty,
so the downstream handler is never invoked: counting strictly precedes
forwarding. -/
theorem C2_count_then_forward
    (dumps : Json → String) (loads : String → Except String Json)
    (storeAvailable : Bool) (invoke : String → String → Except String String)
    (env : Env) (st : Store) (event : Json) (pv : Json) (e : StoreErr)
    (hpath : Json.lookup event "path" = some pv)
    (hfail : updateItem storeAvailable st pv = .error e) :
    handler dumps loads storeAvailable invoke env st event
      = (.error (.counterStore e), st, []) := by
  simp [handler, hpath, hfail]

/-- Witness for C2 with an unreachable store. -/
theorem C2_count_then_forward_witness :
    handler jsonDumps jsonLoads false
        (lambdaTransport helloFns jsonDumps jsonLoads) demoEnv emptyStore
        helloEvent
      = (.error (.counterStore .unavailable), emptyStore, []) :=
  C2_count_then_forward jsonDumps jsonLoads false
    (lambdaTransport helloFns jsonDumps jsonLoads) demoEnv emptyStore
    helloEvent (.str "/hello") .unavailable rfl rfl

/-- C3: a request whose path is missing or empty makes the handler fail
with the table unchanged and an empty effect trace, so no counter
mutation and no downstream invocation happen. -/
theorem C3_invalid_request_rejected
    (dumps : Json → String) (loads : String → Except String Json)
    (storeAvailable : Bool) (invoke : String → String → Except String String)
    (env : Env) (st : Store) (event : Json)
    (h : Json.lookup event "path" = none
         ∨ Json.lookup event "path" = some (.str "")) :
    isErr (handler dumps loads storeAvailable invoke env st event).1 = true
    ∧ (handler dumps loads storeAvailable invoke env st event).2.1 = st
    ∧ (handler dumps loads storeAvailable invoke env st event).2.2 = [] := by
  rcases h with h | h
  · refine ⟨?_, ?_, ?_⟩ <;> simp [handler, h, isErr]
  · cases storeAvailable with
    | false => refine ⟨?_, ?_, ?_⟩ <;> simp [handler, h, updateItem, isErr]
    | true => refine ⟨?_, ?_, ?_⟩ <;> simp [handler, h, updateItem, isErr]

/-- Witness for C3 at an event with no path key. -/
theorem C3_invalid_request_rejected_witness :
    isErr (handler jsonDumps jsonLoads true
        (lambdaTransport helloFns jsonDumps jsonLoads) demoEnv emptyStore
        (.obj [])).1 = true
    ∧ (handler jsonDumps jsonLoads true
        (lambdaTransport helloFns jsonDumps jsonLoads) demoEnv emptyStore
        (.obj [])).2.1 = emptyStore
    ∧ (handler jsonDumps jsonLoads true
        (lambdaTransport helloFns jsonDumps jsonLoads) demoEnv emptyStore
        (.obj [])).2.2 = [] :=
  C3_invalid_request_rejected jsonDumps jsonLoads true
    (lambdaTransport helloFns jsonDumps jsonLoads) demoEnv emptyStore
    (.obj []) (Or.inl rfl)

/-- C4: when the increment succeeds and the downstream invocation then
fails, the failure propagates to the caller while the counter for the
requested path keeps its committed increment of exactly 1, with every
other path untouched: there is no rollback. -/
theorem C4_no_rollback_on_downstream_failure
    (dumps : Json → String) (loads : String → Except String Json)
    (invoke : String → String → Except String String)
    (env : Env) (st : Store) (event : Json) (p : String) (msg : String)
    (hpath : Json.lookup event "path" = some (.str p))
    (hp : p ≠ "")
    (hinv : invoke env.DOWNSTREAM_FUNCTION_NAME (dumps event) = .error msg) :
    (handler dumps loads true invoke env st event).1
      = .error (.invokeFailed msg)
    ∧ (handler dumps loads true invoke env st event).2.1.hits p
      = some ((st.hits p).getD 0 + 1)
    ∧ ∀ q, q ≠ p → (handler dumps loads true invoke env st event).2.1.hits q
      = st.hits q := by
  have hrun : handler dumps loads true invoke env st event
      = (.error (.invokeFailed msg),
         ⟨fun q => if q = p then some ((st.hits p).getD 0 + 1) else st.hits q⟩,
         [.storeUpdate (.str p),
          .invokeCall env.DOWNSTREAM_FUNCTION_NAME (dumps event)]) := by
    simp [handler, hpath, updateItem, hp, hinv]
  rw [hrun]
  exact ⟨rfl, by simp, fun q hq => by simp [hq]⟩

/-- Witness for C4 with a timing-out transport. -/
theorem C4_no_rollback_on_downstream_failure_witness :
    (handler jsonDumps jsonLoads true (fun _ _ => .error "Task timed out")
        demoEnv emptyStore helloEvent).1
      = .error (.invokeFailed "Task timed out")
    ∧ (handler jsonDumps jsonLoads true (fun _ _ => .error "Task timed out")
        demoEnv emptyStore helloEvent).2.1.hits "/hello" = some 1 :=
  ⟨(C4_no_rollback_on_downstream_failure jsonDumps jsonLoads
      (fun _ _ => .error "Task timed out") demoEnv emptyStore helloEvent
      "/hello" "Task timed out" rfl (by decide) rfl).1,
   (C4_no_rollback_on_downstream_failure jsonDumps jsonLoads
      (fun _ _ => .error "Task timed out") demoEnv emptyStore helloEvent
      "/hello" "Task timed out" rfl (by decide) rfl).2.1⟩

/-- C5: every successfully handled request raises the hits counter of
its path by exactly 1 above its previous value with absence read as 0,
the effect trace contains exactly one counter operation, namely the
single atomic add keyed by the path, and ten sequential successful
requests to the hello path from a fresh table leave its count at 10. -/
theorem C5_single_atomic_increment
    (dumps : Json → String) (loads : String → Except String Json)
    (storeAvailable : Bool) (invoke : String → String → Except String String)
    (env : Env) (st : Store) (event : Json) (p : String) (r : Json)
    (hpath : Json.lookup event "path" = some (.str p))
    (hok : (handler dumps loads storeAvailable invoke env st event).1 = .ok r) :
    (handler dumps loads storeAvailable invoke env st event).2.1.hits p
      = some ((st.hits p).getD 0 + 1)
    ∧ (handler dumps loads storeAvailable invoke env st event).2.2.filter
        Effect.isStoreUpdate = [.storeUpdate (.str p)]
    ∧ (iterateHandler 10 emptyStore).hits "/hello" = some 10 := by
  by_cases hp : p = ""
  · subst hp
    cases storeAvailable with
    | false => simp [handler, hpath, updateItem] at hok
    | true => simp [handler, hpath, updateItem] at hok
  · cases storeAvailable with
    | false => simp [handler, hpath, updateItem] at hok
    | true =>
      cases hinv : invoke env.DOWNSTREAM_FUNCTION_NAME (dumps event) with
      | error m => simp [handler, hpath, updateItem, hp, hinv] at hok
      | ok body =>
        cases hload : loads body with
        | error m => simp [handler, hpath, updateItem, hp, hinv, hload] at hok
        | ok resp =>
          refine ⟨?_, ?_, ?_⟩
          · simp [handler, hpath, updateItem, hp, hinv, hload]
          · simp [handler, hpath, updateItem, hp, hinv, hload,
              List.filter, Effect.isStoreUpdate]
          · rfl

/-- Witness for C5 at the deployed hello scenario. -/
theorem C5_single_atomic_increment_witness :
    (runHandler emptyStore helloEvent).2.1.hits "/hello" = some 1
    ∧ (runHandler emptyStore helloEvent).2.2.filter Effect.isStoreUpdate
      = [.storeUpdate (.str "/hello")]
    ∧ (iterateHandler 10 emptyStore).hits "/hello" = some 10 :=
  C5_single_atomic_increment jsonDumps jsonLoads true
    (lambdaTransport helloFns jsonDumps jsonLoads) demoEnv emptyStore
    helloEvent "/hello" helloResponse rfl rfl

/-- C6: once the counter update has succeeded, the handler calls the
invoke transport exactly once, targeting the configured downstream
function name and carrying the serialization of the unmodified inbound
event, and its own outcome is exactly the relay of that synchronous
invoke outcome. -/
theorem C6_forwards_original_request_synchronously
    (dumps : Json → String) (loads : String → Except String Json)
    (storeAvailable : Bool) (invoke : String → String → Except String String)
    (env : Env) (st : Store) (event : Json) (pv : Json) (st2 : Store)
    (hpath : Json.lookup event "path" = some pv)
    (hupd : updateItem storeAvailable st pv = .ok st2) :
    handler dumps loads storeAvailable invoke env st event
      = (relayResult loads (invoke env.DOWNSTREAM_FUNCTION_NAME (dumps event)),
         st2,
         [.storeUpdate pv,
          .invokeCall env.DOWNSTREAM_FUNCTION_NAME (dumps event)]) := by
  cases hinv : invoke env.DOWNSTREAM_FUNCTION_NAME (dumps event) with
  | error m => simp [handler, hpath, hupd, hinv, relayResult]
  | ok body =>
    cases hload : loads body with
    | error m => simp [handler, hpath, hupd, hinv, hload, relayResult]
    | ok resp => simp [handler, hpath, hupd, hinv, hload, relayResult]

/-- Witness for C6 at the deployed hello scenario. -/
theorem C6_forwards_original_request_synchronously_witness :
    handler jsonDumps jsonLoads true
        (lambdaTransport helloFns jsonDumps jsonLoads) demoEnv emptyStore
        helloEvent
      = (relayResult jsonLoads
           (lambdaTransport helloFns jsonDumps jsonLoads
             demoEnv.DOWNSTREAM_FUNCTION_NAME (jsonDumps helloEvent)),
         ⟨fun q => if q = "/hello" then some 1 else none⟩,
         [.storeUpdate (.str "/hello"),
          .invokeCall demoEnv.DOWNSTREAM_FUNCTION_NAME (jsonDumps helloEvent)]) :=
  C6_forwards_original_request_synchronously jsonDumps jsonLoads true
    (lambdaTransport helloFns jsonDumps jsonLoads) demoEnv emptyStore
    helloEvent (.str "/hello")
    ⟨fun q => if q = "/hello" then some 1 else none⟩ rfl rfl

/-- C7: on a first-ever request with path /hello against the deployed
system, the hits value for /hello becomes 1, the single invoke call
carries a payload that decodes back to the event with path /hello, and
the relayed response is exactly statusCode 200 with the hello greeting
body. -/
theorem C7_scenario_first_hello :
    (runHandler emptyStore helloEvent).1 = .ok helloResponse
    ∧ (runHandler emptyStore helloEvent).2.1.hits "/hello" = some 1
    ∧ (runHandler emptyStore helloEvent).2.2
      = [.storeUpdate (.str "/hello"),
         .invokeCall "HelloHandler" (jsonDumps helloEvent)]
    ∧ jsonLoads (jsonDumps helloEvent) = .ok helloEvent :=
  ⟨rfl, rfl, rfl, rfl⟩

/-- C8: across every possible run of the handler, the stored hits value
of every path either stays exactly what it was or becomes its previous
value plus one with absence read as 0: counts are never deleted, never
decremented, and never overwritten with an unrelated value. -/
theorem C8_hits_monotone
    (dumps : Json → String) (loads : String → Except String Json)
    (storeAvailable : Bool) (invoke : String → String → Except String String)
    (env : Env) (st : Store) (event : Json) :
    ∀ q, (handler dumps loads storeAvailable invoke env st event).2.1.hits q
        = st.hits q
      ∨ (handler dumps loads storeAvailable invoke env st event).2.1.hits q
        = some ((st.hits q).getD 0 + 1) := by
  intro q
  cases hpath : Json.lookup event "path" with
  | none => left; simp [handler, hpath]
  | some pv =>
    cases hupd : updateItem storeAvailable st pv with
    | error e => left; simp [handler, hpath, hupd]
    | ok st2 =>
      obtain ⟨p, _, _, hfun⟩ := updateItem_ok_char _ _ _ _ hupd
      have hst : (handler dumps loads storeAvailable invoke env st event).2.1
          = st2 :=
        handler_store_of_update_ok dumps loads storeAvailable invoke env st
          event pv st2 hpath hupd
      rw [hst, hfun]
      by_cases hq : q = p
      · subst hq; right; simp
      · left; simp [hq]

/-- C9: an invocation attempt on the downstream function is allowed by
the grants the HitCounter construct creates only when it comes from the
handler execution role itself or from the Lambda service principal with
the source account and the source ARN pinned to the stack account and
the hit-counter handler function; every other principal is denied and
never reaches the downstream. -/
theorem C9_access_policy_scoping
    (handlerRole account handlerArn : String) (a : InvokeAttempt)
    (h : allowedToInvoke (downstreamInvokeGrants handlerRole account handlerArn)
        a = true) :
    a.principal = handlerRole
    ∨ (a.principal = "lambda.amazonaws.com"
        ∧ a.sourceAccount = some account ∧ a.sourceArn = some handlerArn) := by
  simp [allowedToInvoke, downstreamInvokeGrants, GrantEntry.allows] at h
  rcases h with ⟨h1, _⟩ | ⟨⟨⟨h1, _⟩, h2⟩, h3⟩
  · exact Or.inl h1.symm
  · exact Or.inr ⟨h1.symm, h2, h3⟩

/-- Witness for C9 at a concrete attempt by the handler role. -/
theorem C9_access_policy_scoping_witness :
    InvokeAttempt.principal ⟨"arn:aws:iam::111122223333:role/HitCounterHandlerRole",
        "lambda:InvokeFunction", none, none⟩
      = "arn:aws:iam::111122223333:role/HitCounterHandlerRole"
    ∨ (InvokeAttempt.principal ⟨"arn:aws:iam::111122223333:role/HitCounterHandlerRole",
          "lambda:InvokeFunction", none, none⟩ = "lambda.amazonaws.com"
        ∧ InvokeAttempt.sourceAccount ⟨"arn:aws:iam::111122223333:role/HitCounterHandlerRole",
            "lambda:InvokeFunction", none, none⟩ = some "111122223333"
        ∧ InvokeAttempt.sourceArn ⟨"arn:aws:iam::111122223333:role/HitCounterHandlerRole",
            "lambda:InvokeFunction", none, none⟩
          = some "arn:aws:lambda:us-east-1:111122223333:function:HitCounterHandler") :=
  C9_access_policy_scoping "arn:aws:iam::111122223333:role/HitCounterHandlerRole"
    "111122223333"
    "arn:aws:lambda:us-east-1:111122223333:function:HitCounterHandler"
    ⟨"arn:aws:iam::111122223333:role/HitCounterHandlerRole",
      "lambda:InvokeFunction", none, none⟩ (by decide)

/-- C10: one handler run changes at most the counter record of the
requested path: every path other than the one named by the event keeps
exactly its previous stored value, and the handler itself, being a pure
function of environment, table state and event, carries no state from
one request to the next. -/
theorem C10_frame_property
    (dumps : Json → String) (loads : String → Except String Json)
    (storeAvailable : Bool) (invoke : String → String → Except String String)
    (env : Env) (st : Store) (event : Json) (q : String)
    (h : ∀ s, Json.lookup event "path" = some (.str s) → s ≠ q) :
    (handler dumps loads storeAvailable invoke env st event).2.1.hits q
      = st.hits q := by
  cases hpath : Json.lookup event "path" with
  | none => simp [handler, hpath]
  | some pv =>
    cases hupd : updateItem storeAvailable st pv with
    | error e => simp [handler, hpath, hupd]
    | ok st2 =>
      obtain ⟨p, hpv, _, hfun⟩ := updateItem_ok_char _ _ _ _ hupd
      have hst : (handler dumps loads storeAvailable invoke env st event).2.1
          = st2 :=
        handler_store_of_update_ok dumps loads storeAvailable invoke env st
          event pv st2 hpath hupd
      have hpath2 : Json.lookup event "path" = some (.str p) := by
        rw [← hpv]; exact hpath
      have hq : q ≠ p := Ne.symm (h p hpath2)
      rw [hst, hfun]
      simp [hq]

/-- Witness for C10 at the hello event and an unrelated path. -/
theorem C10_frame_property_witness :
    (handler jsonDumps jsonLoads true
        (lambdaTransport helloFns jsonDumps jsonLoads) demoEnv emptyStore
        helloEvent).2.1.hits "/other" = emptyStore.hits "/other" :=
  C10_frame_property jsonDumps jsonLoads true
    (lambdaTransport helloFns jsonDumps jsonLoads) demoEnv emptyStore
    helloEvent "/other"
    (fun s hs => by
      rw [show Json.lookup helloEvent "path" = some (.str "/hello") from rfl]
        at hs
      injection hs with h1
      injection h1 with h2
      subst h2
      decide)

end CDKWorkshop
